import Mathlib

/-
  Verification of the turtle-stock daily market-analysis and risk-distribution
  engine, embedded shallowly in Lean 4.

  Python floats are modelled as rationals (ℚ); a float that may be Python
  `None` is `Option ℚ`.  Python truthiness on such a value (`if x:`) is false
  for both `None` and `0.0`, which `pyTruthy` captures.  Database state is
  explicit record state; a FastAPI handler is a function from state to
  (optional HTTP error, committed state): an exception raised before
  `db.commit()` leaves the committed state unchanged, one raised after
  `db.commit()` leaves the committed mutation in place.
-/

namespace TurtleStock

/-- Python truthiness of an optional float: `None` and `0.0` are falsy,
every other value is truthy. -/
def pyTruthy : Option ℚ → Bool
  | none => false
  | some x => decide (x ≠ 0)

/-- Python `x or 0` applied to an optional float, as in
`high_20d or 0` (signal_service.py lines 343-347): yields `0` for `None`
(and for `0.0`, where it is the identity). -/
def orZero (o : Option ℚ) : ℚ := if pyTruthy o then o.getD 0 else 0

/-- Python truthiness of an optional string: `None` and `""` are falsy. -/
def pyTruthyStr : Option String → Bool
  | none => false
  | some s => decide (s ≠ "")

/-- The slice `xs[-k:]` of a Python list: its last `k` elements
(the whole list when it is shorter than `k`). -/
def lastSlice (k : ℕ) (xs : List ℚ) : List ℚ := xs.drop (xs.length - k)

/-- The value of `np.max` on a (nonempty) array; call sites guard against the
empty case, which never arises. -/
def npMax : List ℚ → ℚ
  | [] => 0
  | x :: xs => xs.foldl max x

/-- The value of `np.mean` on a (nonempty) array: sum divided by length. -/
def npMean (xs : List ℚ) : ℚ := xs.sum / (xs.length : ℚ)

/-- The OHLCV dictionary produced by `_get_ohlcv_from_yahoo`: parallel lists
of opens, highs, lows, closes and volumes. -/
structure Ohlcv where
  o : List ℚ
  hi : List ℚ
  lo : List ℚ
  c : List ℚ
  v : List ℚ
deriving DecidableEq

/-- The tuple returned by `SignalService.calculate_indicators`. -/
structure Indicators where
  high_20d : Option ℚ
  sma_50d : Option ℚ
  sma_200d : Option ℚ
  high_52w : Option ℚ
  atr : Option ℚ
deriving DecidableEq

/-- The true-range array of `SignalService.calculate_indicators` line 233:
`np.maximum(highs[1:] - lows[1:], np.abs(highs[1:] - closes[:-1]),
np.abs(lows[1:] - closes[:-1]))`.  The third positional argument of
`np.maximum` is its `out` parameter, so the value computed is the elementwise
maximum of the FIRST TWO arrays only; the `|low - prev_close|` term is used
solely as the output buffer and does not take part in the maximum. -/
def tr_np (highs lows closes : List ℚ) : List ℚ :=
  List.zipWith max
    (List.zipWith (fun a b => a - b) highs.tail lows.tail)
    (List.zipWith (fun a b => |a - b|) highs.tail closes.dropLast)

/-- `SignalService.calculate_indicators` (signal_service.py lines 202-238):
20-day high, 50/200-day SMA and 52-week high over closes, plus the 14-day ATR
computed from `tr_np`.  Each indicator is `none` below its window length. -/
def calculate_indicators (ohlcv : Ohlcv) : Indicators :=
  let closes := ohlcv.c
  let high_20d := if closes.length ≥ 20 then some (npMax (lastSlice 20 closes)) else none
  let sma_50d := if closes.length ≥ 50 then some (npMean (lastSlice 50 closes)) else none
  let sma_200d := if closes.length ≥ 200 then some (npMean (lastSlice 200 closes)) else none
  let high_52w := if closes.length ≥ 252 then some (npMax (lastSlice 252 closes)) else none
  let tr := tr_np ohlcv.hi ohlcv.lo closes
  let atr := if tr.length ≥ 14 then some (npMean (lastSlice 14 tr)) else none
  ⟨high_20d, sma_50d, sma_200d, high_52w, atr⟩

/-- A daily candle as consumed by `StockService.calculate_atr`
(one entry of `history["data"]`). -/
structure Candle where
  high : ℚ
  low : ℚ
  close : ℚ
deriving DecidableEq

/-- The true-range loop of `StockService.calculate_atr` (stock_service.py
lines 218-228): for each bar `i ≥ 1`,
`max(high - low, |high - prev_close|, |low - prev_close|)`. -/
def true_ranges (data : List Candle) : List ℚ :=
  (data.zip data.tail).map fun pc =>
    max (pc.2.high - pc.2.low)
      (max |pc.2.high - pc.1.close| |pc.2.low - pc.1.close|)

/-- `StockService.calculate_atr` (stock_service.py lines 202-239) after a
successful history fetch: `none` with fewer than `window + 1` candles or
fewer than `window` true ranges, else the mean of the last `window`
true ranges. -/
def calculate_atr (data : List Candle) (window : ℕ) : Option ℚ :=
  if data.length < window + 1 then none
  else
    let trs := true_ranges data
    if trs.length < window then none
    else some ((lastSlice window trs).sum / (window : ℚ))

/-! Spec-side indicator definitions, written from the specification's words
(spec §4.1) for comparison with the code-side definitions above. -/

/-- Spec: "the last k bars" of a series. -/
def lastBars (k : ℕ) (xs : List ℚ) : List ℚ := (xs.reverse.take k).reverse

/-- Spec §4.1: `high_20d` = max(close) over the last 20 bars; `null` if fewer
than 20 bars available. -/
def spec_high_20d (closes : List ℚ) : Option ℚ :=
  if closes.length < 20 then none else (lastBars 20 closes).max?

/-- Spec §4.1: `sma_50d` / `sma_200d` = arithmetic mean of close over the
trailing k bars; `null` below that count. -/
def spec_sma (k : ℕ) (closes : List ℚ) : Option ℚ :=
  if closes.length < k then none else some ((lastBars k closes).sum / (k : ℚ))

/-- Spec §4.1: `high_52w` = max(close) over the trailing 252 bars; `null`
below 252. -/
def spec_high_52w (closes : List ℚ) : Option ℚ :=
  if closes.length < 252 then none else (lastBars 252 closes).max?

/-- Spec §4.1: True Range for bar i (i ≥ 1):
`max(high_i - low_i, |high_i - close_{i-1}|, |low_i - close_{i-1}|)`. -/
def spec_true_range (prevClose high low : ℚ) : ℚ :=
  max (high - low) (max |high - prevClose| |low - prevClose|)

/-- Spec §4.1: the list of true-range values of a series, one per bar i ≥ 1. -/
def spec_true_ranges (highs lows closes : List ℚ) : List ℚ :=
  List.zipWith (fun hl c => spec_true_range c hl.1 hl.2)
    (highs.tail.zip lows.tail) closes.dropLast

/-- Spec §4.1: `atr_14d` = arithmetic mean of the last 14 true-range values;
`null` if fewer than 14 true-range values (fewer than 15 bars) exist. -/
def spec_atr_14d (highs lows closes : List ℚ) : Option ℚ :=
  let trs := spec_true_ranges highs lows closes
  if trs.length < 14 then none else some ((lastBars 14 trs).sum / (14 : ℚ))

/-! The signal evaluator. -/

/-- `SignalService.check_signal_conditions` (signal_service.py lines 240-246).
Each condition is guarded by Python truthiness of the indicator
(`close >= high_20d if high_20d else False`), so a `None` or `0.0` indicator
makes its condition `False` instead of raising. -/
def check_signal_conditions (close : ℚ)
    (high_20d sma_50d sma_200d high_52w : Option ℚ) : Bool :=
  let cond1 := if pyTruthy high_20d then decide (close ≥ high_20d.getD 0) else false
  let cond2 := if pyTruthy sma_50d then decide (close > sma_50d.getD 0) else false
  let cond3 := if pyTruthy sma_50d && pyTruthy sma_200d then
      decide (sma_50d.getD 0 > sma_200d.getD 0) else false
  let cond4 := if pyTruthy high_52w then decide (close ≥ (97 / 100) * high_52w.getD 0)
      else false
  cond1 && cond2 && cond3 && cond4

/-- Spec §4.2: a condition on one possibly-null indicator; a `null` indicator
makes the condition false, not an error. -/
def spec_cond (o : Option ℚ) (p : ℚ → Prop) : Prop :=
  match o with
  | none => False
  | some x => p x

/-- Spec §4.2, the breakout rule: all four of (1) `close ≥ high_20d`,
(2) `close > sma_50d`, (3) `sma_50d > sma_200d`, (4) `close ≥ 0.97 × high_52w`
must hold, a null indicator making its condition false. -/
def spec_signal_rule (close : ℚ)
    (high_20d sma_50d sma_200d high_52w : Option ℚ) : Prop :=
  spec_cond high_20d (fun x => close ≥ x) ∧
  spec_cond sma_50d (fun x => close > x) ∧
  spec_cond sma_50d (fun a => spec_cond sma_200d (fun b => a > b)) ∧
  spec_cond high_52w (fun x => close ≥ (97 / 100) * x)

instance (o : Option ℚ) (p : ℚ → Prop) [∀ x, Decidable (p x)] :
    Decidable (spec_cond o p) := by
  unfold spec_cond
  cases o with
  | none => exact inferInstanceAs (Decidable False)
  | some x => exact inferInstanceAs (Decidable (p x))

/-! Helper lemmas. -/

theorem pyTruthy_none : pyTruthy none = false := rfl

theorem pyTruthy_some {x : ℚ} (hx : x ≠ 0) : pyTruthy (some x) = true := by
  simp [pyTruthy, hx]

theorem pyTruthy_some_zero : pyTruthy (some 0) = false := by simp [pyTruthy]

/-- The Python slice `xs[-k:]` is the list of the last `k` bars. -/
theorem lastSlice_eq_lastBars (k : ℕ) (xs : List ℚ) :
    lastSlice k xs = lastBars k xs := by
  simp [lastSlice, lastBars, List.take_reverse, List.reverse_reverse]

theorem npMax_eq_max? (xs : List ℚ) (hxs : xs ≠ []) :
    some (npMax xs) = xs.max? := by
  cases xs with
  | nil => simp at hxs
  | cons a l => rfl

theorem length_lastSlice (k : ℕ) (xs : List ℚ) (hk : k ≤ xs.length) :
    (lastSlice k xs).length = k := by
  simp [lastSlice]
  omega

theorem npMax_replicate (n : ℕ) (x : ℚ) :
    npMax (List.replicate (n + 1) x) = x := by
  induction n with
  | zero => rfl
  | succ m ih =>
    have : List.replicate (m + 2) x = x :: x :: List.replicate m x := rfl
    rw [this]
    have h2 : List.replicate (m + 1) x = x :: List.replicate m x := rfl
    simp only [npMax] at ih ⊢
    rw [h2] at ih
    simp only [List.foldl_cons] at ih ⊢
    rw [max_self]
    exact ih

theorem code_high_eq_spec_high (k : ℕ) (hk : 0 < k) (c : List ℚ) :
    (if c.length ≥ k then some (npMax (lastSlice k c)) else none)
      = (if c.length < k then none else (lastBars k c).max?) := by
  by_cases h : k ≤ c.length
  · rw [if_pos h, if_neg (Nat.not_lt.mpr h), ← lastSlice_eq_lastBars,
      npMax_eq_max?]
    intro hemp
    have hlen := length_lastSlice k c h
    rw [hemp] at hlen
    simp at hlen
    omega
  · rw [if_neg h, if_pos (Nat.lt_of_not_le h)]

theorem code_sma_eq_spec_sma (k : ℕ) (c : List ℚ) :
    (if c.length ≥ k then some (npMean (lastSlice k c)) else none)
      = spec_sma k c := by
  unfold spec_sma
  by_cases h : k ≤ c.length
  · rw [if_pos h, if_neg (Nat.not_lt.mpr h), ← lastSlice_eq_lastBars]
    unfold npMean
    rw [length_lastSlice k c h]
  · rw [if_neg h, if_pos (Nat.lt_of_not_le h)]

/-! Claim theorems about the indicator engine and the signal evaluator. -/

/-- C8: for every price series, `high_20d` is the maximum close over the last
20 bars and `null` below 20 bars; `sma_50d` and `sma_200d` are the arithmetic
means of the last 50 and 200 closes and `null` below those counts; `high_52w`
is the maximum close over the last 252 bars and `null` below 252.  Each
code-side indicator of `calculate_indicators` equals its spec-side
definition, so an indicator below its bar count is never zero and never
computed on a partial window. -/
theorem indicators_match_spec_windows (ohlcv : Ohlcv) :
    (calculate_indicators ohlcv).high_20d = spec_high_20d ohlcv.c ∧
    (calculate_indicators ohlcv).sma_50d = spec_sma 50 ohlcv.c ∧
    (calculate_indicators ohlcv).sma_200d = spec_sma 200 ohlcv.c ∧
    (calculate_indicators ohlcv).high_52w = spec_high_52w ohlcv.c := by
  refine ⟨?_, ?_, ?_, ?_⟩
  · simpa only [calculate_indicators, spec_high_20d] using
      code_high_eq_spec_high 20 (by omega) ohlcv.c
  · simpa only [calculate_indicators] using code_sma_eq_spec_sma 50 ohlcv.c
  · simpa only [calculate_indicators] using code_sma_eq_spec_sma 200 ohlcv.c
  · simpa only [calculate_indicators, spec_high_52w] using
      code_high_eq_spec_high 252 (by omega) ohlcv.c

/-- The 15-bar price series exhibiting the dropped true-range term: fourteen
flat bars (high 11, low 9, close 10) followed by a crash bar
(high 5, low 1, close 3). -/
def c1_highs : List ℚ := List.replicate 14 11 ++ [5]

/-- Lows of the 15-bar crash series. -/
def c1_lows : List ℚ := List.replicate 14 9 ++ [1]

/-- Closes of the 15-bar crash series. -/
def c1_closes : List ℚ := List.replicate 14 10 ++ [3]

/-- The crash series as an OHLCV record. -/
def c1_ohlcv : Ohlcv := ⟨c1_closes, c1_highs, c1_lows, c1_closes, c1_closes⟩

/-- The crash series as candles for `StockService.calculate_atr`. -/
def c1_candles : List Candle := List.replicate 14 ⟨11, 9, 10⟩ ++ [⟨5, 1, 3⟩]

/-- C1: on the 15-bar crash series the last bar's true range should be
`max(5-1, |5-10|, |1-10|) = 9`, but `calculate_indicators` computes
`max(5-1, |5-10|) = 5` because the third argument of `np.maximum` is its
`out` parameter, so its ATR is `31/14` where the spec formula (and
`StockService.calculate_atr`, which implements the three-term maximum
correctly) gives `35/14`. -/
theorem calculate_indicators_atr_drops_low_term :
    (calculate_indicators c1_ohlcv).atr = some (31 / 14) ∧
    spec_atr_14d c1_highs c1_lows c1_closes = some (35 / 14) ∧
    calculate_atr c1_candles 14 = some (35 / 14) ∧
    (calculate_indicators c1_ohlcv).atr ≠ spec_atr_14d c1_highs c1_lows c1_closes := by
  refine ⟨?_, ?_, ?_, ?_⟩ <;>
    norm_num [calculate_indicators, calculate_atr, c1_ohlcv, c1_highs, c1_lows,
      c1_closes, c1_candles, tr_np, true_ranges, spec_atr_14d, spec_true_ranges,
      spec_true_range, lastSlice, lastBars, npMean, npMax, List.replicate]

/-- C6: whenever no indicator is the (separately handled) value `0`,
`check_signal_conditions` returns true exactly when all four spec conditions
hold, a `null` indicator making its condition false rather than raising. -/
theorem check_signal_conditions_iff_spec (close : ℚ)
    (h20 s50 s200 h52 : Option ℚ)
    (e1 : h20 ≠ some 0) (e2 : s50 ≠ some 0) (e3 : s200 ≠ some 0)
    (e4 : h52 ≠ some 0) :
    check_signal_conditions close h20 s50 s200 h52 = true ↔
      spec_signal_rule close h20 s50 s200 h52 := by
  cases h20 with
  | none => simp [check_signal_conditions, spec_signal_rule, pyTruthy, spec_cond]
  | some a =>
    cases s50 with
    | none => simp [check_signal_conditions, spec_signal_rule, pyTruthy, spec_cond]
    | some b =>
      cases s200 with
      | none => simp [check_signal_conditions, spec_signal_rule, pyTruthy, spec_cond]
      | some d =>
        cases h52 with
        | none => simp [check_signal_conditions, spec_signal_rule, pyTruthy, spec_cond]
        | some e =>
          simp only [ne_eq, Option.some.injEq] at e1 e2 e3 e4
          simp [check_signal_conditions, spec_signal_rule, pyTruthy, spec_cond,
            e1, e2, e3, e4, and_assoc]

/-- Witness for C6: the spec's own example close=100, high_20d=100,
sma_50d=95, sma_200d=90, high_52w=102 triggers the signal. -/
theorem check_signal_conditions_iff_spec_witness :
    check_signal_conditions 100 (some 100) (some 95) (some 90) (some 102) = true :=
  (check_signal_conditions_iff_spec 100 (some 100) (some 95) (some 90) (some 102)
      (by norm_num) (by norm_num) (by norm_num) (by norm_num)).mpr
    (by norm_num [spec_signal_rule, spec_cond])

/-- Counterexample for C6: at the snapshot close=100, high_20d=100,
sma_50d=95, sma_200d=90, high_52w=0 all four arithmetic conditions of the
rule hold (in particular 100 ≥ 0.97 × 0), yet `check_signal_conditions`
returns false, because Python truthiness treats the 0.0 indicator like
`None`: the claimed equivalence fails as soon as an indicator is exactly
zero. -/
theorem zero_high52w_breaks_claimed_equivalence :
    spec_signal_rule 100 (some 100) (some 95) (some 90) (some 0) ∧
    check_signal_conditions 100 (some 100) (some 95) (some 90) (some 0) = false := by
  constructor
  · norm_num [spec_signal_rule, spec_cond]
  · norm_num [check_signal_conditions, pyTruthy]

/-- C10: a zero-valued indicator is indistinguishable from a null one to the
evaluator: replacing any indicator field that is exactly `0` by `None` leaves
`check_signal_conditions` unchanged, and with such a field the result is
always false. -/
theorem zero_indicator_indistinguishable_from_null (close : ℚ)
    (h20 s50 s200 h52 : Option ℚ) :
    (check_signal_conditions close (some 0) s50 s200 h52
        = check_signal_conditions close none s50 s200 h52 ∧
      check_signal_conditions close (some 0) s50 s200 h52 = false) ∧
    (check_signal_conditions close h20 (some 0) s200 h52
        = check_signal_conditions close h20 none s200 h52 ∧
      check_signal_conditions close h20 (some 0) s200 h52 = false) ∧
    (check_signal_conditions close h20 s50 (some 0) h52
        = check_signal_conditions close h20 s50 none h52 ∧
      check_signal_conditions close h20 s50 (some 0) h52 = false) ∧
    (check_signal_conditions close h20 s50 s200 (some 0)
        = check_signal_conditions close h20 s50 s200 none ∧
      check_signal_conditions close h20 s50 s200 (some 0) = false) := by
  refine ⟨⟨?_, ?_⟩, ⟨?_, ?_⟩, ⟨?_, ?_⟩, ⟨?_, ?_⟩⟩ <;>
    simp [check_signal_conditions, pyTruthy]

/-! The daily market-analysis job. -/

/-- A row of the `signals` table as created by
`SignalService.generate_daily_market_analysis` (signal_service.py lines
338-349).  Every indicator column is written as `value or 0`, so the stored
fields are plain numbers, never null; `signal_triggered` is stored as
0/1 from the boolean. -/
structure Signal where
  user_id : ℕ
  symbol : String
  date : ℕ
  close : ℚ
  high_20d : ℚ
  sma_50d : ℚ
  sma_200d : ℚ
  high_52w : ℚ
  atr : ℚ
  signal_triggered : Bool
deriving DecidableEq

/-- The signals table. -/
structure SignalDB where
  signals : List Signal
deriving DecidableEq

/-- The environment of one run of the daily job: the symbol universe, the
price-history fetcher (`fetch_ohlcv`, `none` on provider failure) and
today's date. -/
structure MarketEnv where
  symbols : List String
  fetch : String → Option Ohlcv
  today : ℕ

/-- `SignalService.has_sufficient_data` with default arguments
(signal_service.py lines 294-301): at least 170 data points. -/
def has_sufficient_data (data : List ℚ) : Bool := decide (data.length ≥ 170)

/-- The per-symbol body of the daily loop (signal_service.py lines 317-357):
fetch, sufficiency check, indicators, signal evaluation, and construction of
the Signal row with `or 0`-coalesced indicator columns.  `none` means the
symbol was skipped (fetch failure, insufficient data, or the exception
raised by `closes[-1]` on an empty series).  The computed
`stop_loss = close - 2 * atr` (line 332) is printed but not stored. -/
def analyzeSymbol (env : MarketEnv) (symbol : String) : Option Signal :=
  match env.fetch symbol with
  | none => none
  | some ohlcv =>
    if has_sufficient_data ohlcv.c then
      match ohlcv.c.getLast? with
      | none => none
      | some close =>
        let ind := calculate_indicators ohlcv
        let triggered := check_signal_conditions close ind.high_20d ind.sma_50d
          ind.sma_200d ind.high_52w
        some { user_id := 0, symbol := symbol, date := env.today, close := close,
               high_20d := orZero ind.high_20d, sma_50d := orZero ind.sma_50d,
               sma_200d := orZero ind.sma_200d, high_52w := orZero ind.high_52w,
               atr := orZero ind.atr, signal_triggered := triggered }
    else none

/-- `SignalService.generate_daily_market_analysis` (signal_service.py lines
303-363): if any Signal row already exists for today, return the empty list
without touching the table; otherwise analyze every symbol, append the
produced rows, and return them. -/
def generate_daily_market_analysis (env : MarketEnv) (db : SignalDB) :
    List Signal × SignalDB :=
  if db.signals.any (fun s => s.date == env.today) then ([], db)
  else
    let new := env.symbols.filterMap (analyzeSymbol env)
    (new, ⟨db.signals ++ new⟩)

/-- A flat 170-bar series (every open/high/low/close is 10): long enough for
the sufficiency floor, the 20-day high and the 50-day SMA, but short of the
200-day SMA and 252-day high windows. -/
def flat170 : Ohlcv :=
  ⟨List.replicate 170 10, List.replicate 170 10, List.replicate 170 10,
   List.replicate 170 10, List.replicate 170 0⟩

/-- A run environment whose universe is the single symbol AAPL with the flat
170-bar series, on day 0. -/
def env170 : MarketEnv :=
  ⟨["AAPL"], fun s => if s = "AAPL" then some flat170 else none, 0⟩

/-- The Signal row the job writes for AAPL under `env170`. -/
def sig170 : Signal := ⟨0, "AAPL", 0, 10, 10, 10, 0, 0, 0, false⟩

set_option maxRecDepth 20000 in
theorem indicators_flat170 :
    calculate_indicators flat170 = ⟨some 10, some 10, none, none, some 0⟩ := by
  have h20 : npMax (List.replicate 20 (10 : ℚ)) = 10 := by
    have h := npMax_replicate 19 (10 : ℚ)
    norm_num at h
    exact h
  simp only [calculate_indicators, flat170, tr_np, lastSlice,
    List.length_replicate, List.tail_replicate, List.dropLast_replicate,
    List.zipWith_replicate, List.drop_replicate]
  norm_num [h20, npMean, List.sum_replicate]

theorem analyzeSymbol_env170 : analyzeSymbol env170 "AAPL" = some sig170 := by
  have hfetch : env170.fetch "AAPL" = some flat170 := by simp [env170]
  have hsuff : has_sufficient_data flat170.c = true := by
    norm_num [has_sufficient_data, flat170]
  have hlast : flat170.c.getLast? = some 10 := by
    norm_num [flat170, List.getLast?_replicate]
  have hcheck : check_signal_conditions 10 (some 10) (some 10) none none = false := by
    norm_num [check_signal_conditions, pyTruthy]
  have htoday : env170.today = 0 := rfl
  simp only [analyzeSymbol, hfetch, hsuff, if_true, hlast, indicators_flat170,
    hcheck, htoday]
  norm_num [sig170, orZero, pyTruthy]

/-- Counterexample for C5: under `env170` the 170-bar series has too little
history for the 200-day SMA — `calculate_indicators` correctly yields
`none` — yet the Signal row the job persists stores `sma_200d = 0`
(line 345, `sma_200d or 0`), not null. -/
theorem stored_sma200_is_zero_not_null :
    (calculate_indicators flat170).sma_200d = none ∧
    analyzeSymbol env170 "AAPL" = some sig170 ∧
    sig170.sma_200d = 0 := by
  refine ⟨?_, analyzeSymbol_env170, rfl⟩
  rw [indicators_flat170]

/-- C5 as amended: for every symbol the job analyzes, the persisted Signal
row coalesces each null indicator to the stored value 0. -/
theorem analyzeSymbol_coalesces_null_to_zero (env : MarketEnv) (symbol : String)
    (ohlcv : Ohlcv) (close : ℚ)
    (hf : env.fetch symbol = some ohlcv)
    (hs : has_sufficient_data ohlcv.c = true)
    (hl : ohlcv.c.getLast? = some close) :
    ∃ sig, analyzeSymbol env symbol = some sig ∧
      ((calculate_indicators ohlcv).high_20d = none → sig.high_20d = 0) ∧
      ((calculate_indicators ohlcv).sma_50d = none → sig.sma_50d = 0) ∧
      ((calculate_indicators ohlcv).sma_200d = none → sig.sma_200d = 0) ∧
      ((calculate_indicators ohlcv).high_52w = none → sig.high_52w = 0) ∧
      ((calculate_indicators ohlcv).atr = none → sig.atr = 0) := by
  have h : analyzeSymbol env symbol = some
      { user_id := 0, symbol := symbol, date := env.today, close := close,
        high_20d := orZero (calculate_indicators ohlcv).high_20d,
        sma_50d := orZero (calculate_indicators ohlcv).sma_50d,
        sma_200d := orZero (calculate_indicators ohlcv).sma_200d,
        high_52w := orZero (calculate_indicators ohlcv).high_52w,
        atr := orZero (calculate_indicators ohlcv).atr,
        signal_triggered := check_signal_conditions close
          (calculate_indicators ohlcv).high_20d (calculate_indicators ohlcv).sma_50d
          (calculate_indicators ohlcv).sma_200d (calculate_indicators ohlcv).high_52w } := by
    simp only [analyzeSymbol, hf, hs, if_true, hl]
  refine ⟨_, h, ?_, ?_, ?_, ?_, ?_⟩ <;> intro hh <;> simp [hh, orZero, pyTruthy]

/-- Witness for the amended C5 at the concrete 170-bar environment. -/
theorem analyzeSymbol_coalesces_null_to_zero_witness :
    ∃ sig, analyzeSymbol env170 "AAPL" = some sig ∧
      ((calculate_indicators flat170).high_20d = none → sig.high_20d = 0) ∧
      ((calculate_indicators flat170).sma_50d = none → sig.sma_50d = 0) ∧
      ((calculate_indicators flat170).sma_200d = none → sig.sma_200d = 0) ∧
      ((calculate_indicators flat170).high_52w = none → sig.high_52w = 0) ∧
      ((calculate_indicators flat170).atr = none → sig.atr = 0) :=
  analyzeSymbol_coalesces_null_to_zero env170 "AAPL" flat170 10
    (by simp [env170])
    (by norm_num [has_sufficient_data, flat170])
    (by norm_num [flat170, List.getLast?_replicate])

/-- Counterexample for C7: the first run on an empty table returns the AAPL
row, but the second run on the same date returns the empty list — not the
first run's output — while creating no additional rows. -/
theorem second_run_returns_empty_not_first_output :
    generate_daily_market_analysis env170 ⟨[]⟩ = ([sig170], ⟨[sig170]⟩) ∧
    generate_daily_market_analysis env170 ⟨[sig170]⟩ = ([], ⟨[sig170]⟩) ∧
    ([] : List Signal) ≠ [sig170] := by
  refine ⟨?_, ?_, by simp⟩
  · have hsym : env170.symbols = ["AAPL"] := rfl
    simp [generate_daily_market_analysis, hsym, analyzeSymbol_env170]
  · simp [generate_daily_market_analysis, sig170, env170]

/-- C7 as amended: a second invocation on a date that already has Signal
rows creates no additional rows and returns the empty list instead of
erroring. -/
theorem duplicate_run_is_noop (env : MarketEnv) (db : SignalDB)
    (hdup : db.signals.any (fun s => s.date == env.today) = true) :
    generate_daily_market_analysis env db = ([], db) := by
  simp [generate_daily_market_analysis, hdup]

/-- Witness for the amended C7: rerunning on a table that already holds the
day's AAPL row is a no-op returning the empty list. -/
theorem duplicate_run_is_noop_witness :
    generate_daily_market_analysis env170 ⟨[sig170]⟩ = ([], ⟨[sig170]⟩) :=
  duplicate_run_is_noop env170 ⟨[sig170]⟩ (by simp [sig170, env170])

/-! The risk allocator and the portfolio routers. -/

/-- A user's risk settings: the nullable `capital` and `risk_tolerance`
columns of the users table. -/
structure PyUser where
  capital : Option ℚ
  risk_tolerance : Option ℚ
deriving DecidableEq

/-- A row of the `portfolios` table as the routers use it.  NOTE: the ORM
model (models/portfolio.py lines 6-21) declares NO `is_added_up` column; the
routers nonetheless write `holding.is_added_up = 1` and filter on it.  The
field is included here so the router logic can be stated at all — in the
running program the flag is a transient instance attribute that is never
persisted, and reading it on a freshly loaded row raises AttributeError. -/
structure Holding where
  symbol : String
  total_shares : ℚ
  average_price : ℚ
  stop_loss_price : Option ℚ
  is_added_up : Bool
deriving DecidableEq

/-- Python's `str.upper()` on a symbol: character-wise upper-casing.
(Core's `String.toUpper` is the same map, but its loop is defined by
well-founded recursion on byte positions, which blocks evaluation inside
proofs, so the character-list form is used.) -/
def pyUpper (s : String) : String := ⟨s.data.map Char.toUpper⟩

/-- The `current_symbols` list comprehension of
`calculate_distributed_risk` (stock_service.py line 265). -/
def currentSymbols (holdings : List Holding) : List String :=
  holdings.map (fun hd => hd.symbol)

/-- `StockService.calculate_distributed_risk` (stock_service.py lines
241-289).  The Python dict result is modelled as an association list; the
two coincide when the holdings' symbols are pairwise distinct, which the
router guarantees (one holding per user and symbol).  Note that the
function queries ALL of the user's holdings: it contains no `is_added_up`
filter, and its signature `(user_id, db, new_symbol=None)` declares no
`exclude_symbols` parameter. -/
def calculate_distributed_risk (user : Option PyUser) (holdings : List Holding)
    (new_symbol : Option String) : List (String × ℚ) :=
  match user with
  | none => []
  | some u =>
    if !(pyTruthy u.capital) || !(pyTruthy u.risk_tolerance) then []
    else
      let total_risk_amount := u.capital.getD 0 * (u.risk_tolerance.getD 0 / 100)
      let preview := pyTruthyStr new_symbol &&
        !((currentSymbols holdings).contains (pyUpper (new_symbol.getD "")))
      let total_stocks := if preview then (currentSymbols holdings).length + 1
        else (currentSymbols holdings).length
      if total_stocks = 0 then []
      else
        let risk_per_stock := total_risk_amount / (total_stocks : ℚ)
        holdings.map (fun hd => (hd.symbol, risk_per_stock)) ++
          (if preview then [(pyUpper (new_symbol.getD ""), risk_per_stock)] else [])

/-- HTTP-level outcomes of a router call: a 404, a 400, the uncaught
`TypeError` raised by calling `calculate_distributed_risk` with the
undeclared keyword argument `exclude_symbols`, or the uncaught
`AttributeError` raised by reading `holding.is_added_up`, an attribute the
Portfolio ORM model does not declare. -/
inductive HttpErr where
  | notFound
  | badRequest
  | typeError
  | attributeError
deriving DecidableEq

/-- A row of `portfolio_transactions`; the owning holding is keyed by its
symbol (one holding per user and symbol). -/
structure Txn where
  portfolio : String
  transaction_type : String
  shares : ℚ
  price_per_share : ℚ
  total_amount : ℚ
deriving DecidableEq

/-- A row of `trade_history` as written by `sell_stock`. -/
structure Trade where
  symbol : String
  initial_value : ℚ
  end_value : ℚ
  net_value : ℚ
  shares : ℚ
  buy_price : ℚ
  sell_price : ℚ
deriving DecidableEq

/-- The committed database state of one user's portfolio. -/
structure PortfolioDB where
  user : PyUser
  holdings : List Holding
  txns : List Txn
  trades : List Trade
deriving DecidableEq

/-- External market data used by the routers: `get_stock_quote` price and
`calculate_atr`, both fallible. -/
structure QuoteEnv where
  quote : String → Option ℚ
  atrOf : String → Option ℚ

/-- The holding lookup every router performs:
`filter(Portfolio.user_id == current_user.id, Portfolio.symbol == symbol.upper()).first()`. -/
def findHolding (db : PortfolioDB) (symbol : String) : Option Holding :=
  db.holdings.find? (fun hd => hd.symbol == pyUpper symbol)

/-- `_update_all_holdings_stop_loss` (portfolio router lines 19-43).  Its
line 28 calls `stock_service.calculate_distributed_risk(user_id, db,
exclude_symbols=[...])`, but that function's signature is
`(user_id, db, new_symbol=None)`: Python raises
`TypeError: unexpected keyword argument` before any stop-loss value is
touched.  (The list comprehensions on lines 27-28 would already raise
AttributeError on `h.is_added_up` for rows loaded fresh from the ORM, since
the Portfolio model declares no such column.)  The helper therefore always
fails without updating any holding. -/
def update_all_holdings_stop_loss (db : PortfolioDB) : HttpErr × PortfolioDB :=
  (.typeError, db)

/-- The body of a sell request. -/
structure SellReq where
  shares : ℚ
  price_per_share : ℚ
deriving DecidableEq

/-- `sell_stock` (portfolio router lines 418-499): 404 when the holding is
missing, 400 when selling more shares than held — both before any mutation.
Otherwise the sell transaction, holding update (or cascade delete when the
remainder is ≤ 0) and trade record are committed, after which the router
calls `_update_all_holdings_stop_loss`, which raises; the committed mutation
survives and the request reports the error. -/
def sell_stock (db : PortfolioDB) (symbol : String) (sd : SellReq) :
    Option HttpErr × PortfolioDB :=
  match findHolding db symbol with
  | none => (some .notFound, db)
  | some holding =>
    if sd.shares > holding.total_shares then (some .badRequest, db)
    else
      let initial_value := holding.average_price * sd.shares
      let end_value := sd.price_per_share * sd.shares
      let net_value := end_value - initial_value
      let sell_txn : Txn := ⟨holding.symbol, "sell", sd.shares, sd.price_per_share,
        end_value⟩
      let remaining := holding.total_shares - sd.shares
      let holdings1 := if remaining ≤ 0 then
          db.holdings.filter (fun x => x.symbol != holding.symbol)
        else db.holdings.map (fun x => if x.symbol == holding.symbol then
          { x with total_shares := remaining } else x)
      let txns1 := if remaining ≤ 0 then
          db.txns.filter (fun t => t.portfolio != holding.symbol)
        else db.txns ++ [sell_txn]
      let trade : Trade := ⟨holding.symbol, initial_value, end_value, net_value,
        sd.shares, holding.average_price, sd.price_per_share⟩
      let committed : PortfolioDB :=
        { db with holdings := holdings1, txns := txns1,
                  trades := db.trades ++ [trade] }
      (some (update_all_holdings_stop_loss committed).1,
       (update_all_holdings_stop_loss committed).2)

/-- The body of a buy or add-up request (`PortfolioCreate`). -/
structure BuyReq where
  symbol : String
  shares : ℚ
  price : ℚ
deriving DecidableEq

/-- `add_up_stock` (portfolio router lines 515-596): 404 when the holding is
missing; 400 when `data.shares >= holding.total_shares` (pyramid rule) —
both before any mutation.  Past those guards, the very next statement (the
line 543 print f-string) reads `holding.is_added_up`, an attribute the
Portfolio ORM model does not declare and nothing has set on the freshly
loaded instance: Python raises AttributeError BEFORE the first `db.add` at
line 553.  A well-formed add-up therefore never appends the buy
transaction, never recomputes `total_shares`/`average_price`, and never
sets `is_added_up` (line 570) or a trailing stop (lines 571-589): the
request always fails with the database unchanged.  The `env` parameter
carries the quote and ATR sources the dead remainder of the handler would
consume. -/
def add_up_stock (_env : QuoteEnv) (db : PortfolioDB) (symbol : String)
    (data : BuyReq) : Option HttpErr × PortfolioDB :=
  match findHolding db symbol with
  | none => (some .notFound, db)
  | some holding =>
    if data.shares ≥ holding.total_shares then (some .badRequest, db)
    else (some .attributeError, db)

/-- The guard of `add_stock_to_portfolio` (portfolio router lines 68-71):
`risk_tolerance is not None and capital is not None and risk_tolerance > 0
and capital > 0`. -/
def settingsValid (u : PyUser) : Bool :=
  match u.risk_tolerance, u.capital with
  | some rt, some cap => decide (0 < rt) && decide (0 < cap)
  | _, _ => false

/-- `add_stock_to_portfolio` (portfolio router lines 60-167).  With missing
or non-positive risk settings the handler returns a 400 response having
touched nothing.  With valid settings it reaches line 94, which reads
`Portfolio.is_added_up` — a column the ORM model does not declare — and
line 97, which calls `calculate_distributed_risk` with the keyword argument
`exclude_symbols` that the function does not accept; either way Python
raises before the first session mutation (the first `db.add` is at line
125), so every buy fails with the database unchanged.  In particular the
create-new-holding branch (lines 145-159) — the only buy path containing no
recompute-all call — is unreachable, and no buy ever reaches
`_update_all_holdings_stop_loss`. -/
def add_stock_to_portfolio (db : PortfolioDB) (_item : BuyReq) :
    Option HttpErr × PortfolioDB :=
  if settingsValid db.user then (some .typeError, db)
  else (some .badRequest, db)

theorem sum_map_const {α : Type} (l : List α) (z : ℚ) :
    (l.map (fun _ => z)).sum = (l.length : ℚ) * z := by
  induction l with
  | nil => simp
  | cons a t ih =>
    simp [ih]
    ring

/-- C2 as amended: for a user with positive capital and risk tolerance, the
allocation of `calculate_distributed_risk` maps exactly the set of ALL
current holdings (the function applies no `is_added_up` filter), plus one
previewed new symbol when it is not already held, each to the equal amount
`capital * risk_tolerance / 100 / count`, so the amounts sum to the total
risk amount; with no holdings and no previewed symbol the allocation is
empty.  The `Nodup` hypothesis is the router's one-holding-per-symbol
invariant, under which the association list coincides with the Python
dict. -/
theorem distributed_risk_equal_split (u : PyUser) (holdings : List Holding)
    (new_symbol : Option String) (cap rt : ℚ)
    (hc : u.capital = some cap) (hcpos : 0 < cap)
    (hr : u.risk_tolerance = some rt) (hrpos : 0 < rt)
    (hnd : (currentSymbols holdings).Nodup) :
    ((calculate_distributed_risk (some u) holdings new_symbol).map Prod.fst
        = currentSymbols holdings ++
          (if pyTruthyStr new_symbol &&
              !((currentSymbols holdings).contains (pyUpper (new_symbol.getD "")))
            then [pyUpper (new_symbol.getD "")] else [])) ∧
    (∀ p ∈ calculate_distributed_risk (some u) holdings new_symbol,
        p.2 = cap * (rt / 100) /
          (((calculate_distributed_risk (some u) holdings new_symbol).length : ℕ) : ℚ)) ∧
    (calculate_distributed_risk (some u) holdings new_symbol ≠ [] →
      ((calculate_distributed_risk (some u) holdings new_symbol).map Prod.snd).sum
        = cap * (rt / 100)) ∧
    (holdings = [] →
      (pyTruthyStr new_symbol &&
        !((currentSymbols holdings).contains (pyUpper (new_symbol.getD "")))) = false →
      calculate_distributed_risk (some u) holdings new_symbol = []) := by
  have hcap : pyTruthy u.capital = true := by
    rw [hc]; exact pyTruthy_some (ne_of_gt hcpos)
  have hrt : pyTruthy u.risk_tolerance = true := by
    rw [hr]; exact pyTruthy_some (ne_of_gt hrpos)
  have hval : u.capital.getD 0 * (u.risk_tolerance.getD 0 / 100) = cap * (rt / 100) := by
    rw [hc, hr]
    simp
  by_cases hp : (pyTruthyStr new_symbol &&
      !((currentSymbols holdings).contains (pyUpper (new_symbol.getD "")))) = true
  · have hres : calculate_distributed_risk (some u) holdings new_symbol
        = holdings.map (fun hd => (hd.symbol,
            cap * (rt / 100) / ((currentSymbols holdings).length + 1 : ℕ)))
          ++ [(pyUpper (new_symbol.getD ""),
            cap * (rt / 100) / ((currentSymbols holdings).length + 1 : ℕ))] := by
      simp only [calculate_distributed_risk, hcap, hrt, hp, hval, Bool.not_true,
        Bool.or_self, Bool.false_or, if_true, if_false, Nat.succ_ne_zero,
        ite_false, ite_true, Bool.false_eq_true, reduceIte]
    have hlen : (calculate_distributed_risk (some u) holdings new_symbol).length
        = (currentSymbols holdings).length + 1 := by
      rw [hres]
      simp [currentSymbols]
    refine ⟨?_, ?_, ?_, ?_⟩
    · rw [hres, if_pos hp]
      simp [currentSymbols]
    · intro p hmem
      rw [hlen]
      rw [hres] at hmem
      rcases List.mem_append.mp hmem with hmem1 | hmem2
      · rcases List.mem_map.mp hmem1 with ⟨hd, _, hpd⟩
        rw [← hpd]
      · rw [List.mem_singleton.mp hmem2]
    · intro _
      rw [hres]
      have hne : (((currentSymbols holdings).length + 1 : ℕ) : ℚ) ≠ 0 := by
        push_cast
        positivity
      simp only [List.map_append, List.map_map, List.sum_append, List.map_cons,
        List.map_nil, List.sum_cons, List.sum_nil, add_zero]
      have hconst : (holdings.map (Prod.snd ∘ fun hd => (hd.symbol,
          cap * (rt / 100) / ((currentSymbols holdings).length + 1 : ℕ)))).sum
          = (holdings.length : ℚ) *
            (cap * (rt / 100) / ((currentSymbols holdings).length + 1 : ℕ)) := by
        exact sum_map_const holdings _
      rw [hconst]
      have hlen2 : (currentSymbols holdings).length = holdings.length := by
        simp [currentSymbols]
      rw [hlen2]
      field_simp
      ring
    · intro _ hfl
      rw [hp] at hfl
      exact absurd hfl (by simp)
  · have hp' : (pyTruthyStr new_symbol &&
        !((currentSymbols holdings).contains (pyUpper (new_symbol.getD "")))) = false := by
      exact Bool.not_eq_true _ ▸ Bool.eq_false_iff.mpr hp
    by_cases hnil : holdings = []
    · subst hnil
      have hp2 : pyTruthyStr new_symbol = false := by
        simpa [currentSymbols] using hp'
      have hres : calculate_distributed_risk (some u) [] new_symbol = [] := by
        simp only [calculate_distributed_risk, hcap, hrt, hp2, hval, Bool.not_true,
          Bool.or_self, if_false, ite_false, Bool.false_eq_true, reduceIte,
          currentSymbols, List.map_nil, List.length_nil, ite_true, if_true,
          Bool.false_and, List.contains_nil, Bool.not_false, Bool.and_true]
      refine ⟨?_, ?_, ?_, ?_⟩
      · rw [hres, if_neg (by rw [hp']; exact Bool.false_ne_true)]
        simp [currentSymbols]
      · intro p hmem
        rw [hres] at hmem
        exact absurd hmem (List.not_mem_nil p)
      · intro hne
        exact absurd hres hne
      · intro _ _
        exact hres
    · have hlen0 : (currentSymbols holdings).length ≠ 0 := by
        simp [currentSymbols]
        exact hnil
      have hres : calculate_distributed_risk (some u) holdings new_symbol
          = holdings.map (fun hd => (hd.symbol,
              cap * (rt / 100) / ((currentSymbols holdings).length : ℕ))) := by
        simp only [calculate_distributed_risk, hcap, hrt, hp', hval, Bool.not_true,
          Bool.or_self, if_false, ite_false, Bool.false_eq_true, reduceIte, hlen0,
          List.append_nil]
      have hlen : (calculate_distributed_risk (some u) holdings new_symbol).length
          = (currentSymbols holdings).length := by
        rw [hres]
        simp [currentSymbols]
      refine ⟨?_, ?_, ?_, ?_⟩
      · rw [hres, if_neg (by rw [hp']; exact Bool.false_ne_true)]
        simp [currentSymbols]
      · intro p hmem
        rw [hlen]
        rw [hres] at hmem
        rcases List.mem_map.mp hmem with ⟨hd, _, hpd⟩
        rw [← hpd]
      · intro _
        rw [hres]
        have hne : (((currentSymbols holdings).length : ℕ) : ℚ) ≠ 0 := by
          exact_mod_cast hlen0
        have hconst : (holdings.map (Prod.snd ∘ fun hd => (hd.symbol,
            cap * (rt / 100) / ((currentSymbols holdings).length : ℕ)))).sum
            = (holdings.length : ℚ) *
              (cap * (rt / 100) / ((currentSymbols holdings).length : ℕ)) := by
          exact sum_map_const holdings _
        rw [List.map_map, hconst]
        have hlen2 : (currentSymbols holdings).length = holdings.length := by
          simp [currentSymbols]
        rw [hlen2] at hne ⊢
        field_simp
        ring
      · intro hfl _
        exact absurd hfl hnil

/-- A holding already flagged as added-up. -/
def aaplAddedUp : Holding := ⟨"AAPL", 10, 100, some 80, true⟩

/-- Counterexample for C2: a user whose only holding is already added-up has
zero eligible (not-added-up) holdings, so the claimed allocation is empty;
`calculate_distributed_risk` instead allocates the full risk amount
(10000 × 1% = 100) to the added-up holding. -/
theorem distributed_risk_ignores_added_up_counterexample :
    aaplAddedUp.is_added_up = true ∧
    calculate_distributed_risk (some ⟨some 10000, some 1⟩) [aaplAddedUp] none
      = [("AAPL", 100)] := by
  constructor
  · rfl
  · norm_num [calculate_distributed_risk, aaplAddedUp, currentSymbols,
      pyTruthy, pyTruthyStr]

/-- Witness for the amended C2: capital 10000, risk 2%, two distinct
holdings, no preview: each gets 100 and the amounts sum to 200. -/
theorem distributed_risk_equal_split_witness :
    ((calculate_distributed_risk
        (some ⟨some 10000, some 2⟩) [⟨"AAPL", 10, 10, some 8, false⟩,
          ⟨"MSFT", 5, 20, some 15, false⟩] none).map Prod.fst
      = currentSymbols [⟨"AAPL", 10, 10, some 8, false⟩,
          ⟨"MSFT", 5, 20, some 15, false⟩] ++ []) ∧
    ((calculate_distributed_risk
        (some ⟨some 10000, some 2⟩) [⟨"AAPL", 10, 10, some 8, false⟩,
          ⟨"MSFT", 5, 20, some 15, false⟩] none).map Prod.snd).sum
      = 10000 * (2 / 100) := by
  have h := distributed_risk_equal_split ⟨some 10000, some 2⟩
    [⟨"AAPL", 10, 10, some 8, false⟩, ⟨"MSFT", 5, 20, some 15, false⟩]
    none 10000 2 rfl (by norm_num) rfl (by norm_num)
    (by simp [currentSymbols])
  refine ⟨?_, h.2.2.1 (by simp [calculate_distributed_risk, pyTruthy,
    pyTruthyStr, currentSymbols])⟩
  have h1 := h.1
  simpa [pyTruthyStr] using h1

/-- A not-added-up AAPL holding of 10 shares at 10 with stop 8. -/
def aapl0 : Holding := ⟨"AAPL", 10, 10, some 8, false⟩

/-- A not-added-up MSFT holding of 10 shares at 10 with stop 8. -/
def msft0 : Holding := ⟨"MSFT", 10, 10, some 8, false⟩

/-- A user with capital 10000 and risk tolerance 1% holding AAPL and MSFT. -/
def dbTwo : PortfolioDB :=
  ⟨⟨some 10000, some 1⟩, [aapl0, msft0],
   [⟨"AAPL", "buy", 10, 10, 100⟩, ⟨"MSFT", "buy", 10, 10, 100⟩], []⟩

/-- Market data: every quote is 20, every ATR is 1. -/
def envTwo : QuoteEnv := ⟨fun _ => some 20, fun _ => some 1⟩

/-- C3: the `is_added_up` mechanism does not exist at runtime.  A
well-formed pyramid add-up (5 of 10 AAPL shares, passing both guards) fails
with AttributeError before its first mutation — the line 543 print reads
`holding.is_added_up`, a column the Portfolio model never declares — so the
database is unchanged and no holding's flag ever becomes true; and
`calculate_distributed_risk` reads only each holding's symbol: its
allocation is invariant under arbitrary reassignment of every holding's
`is_added_up` flag, so no exclusion from the shared risk pool exists
either. -/
theorem add_up_cannot_set_flag_and_pool_ignores_it :
    (add_up_stock envTwo dbTwo "AAPL" ⟨"AAPL", 5, 20⟩
      = (some .attributeError, dbTwo)) ∧
    (∀ (user : Option PyUser) (holdings : List Holding)
        (new_symbol : Option String) (f : Holding → Bool),
      calculate_distributed_risk user
          (holdings.map (fun hd => { hd with is_added_up := f hd })) new_symbol
        = calculate_distributed_risk user holdings new_symbol) := by
  constructor
  · have hfind : findHolding dbTwo "AAPL" = some aapl0 := by
      simp [findHolding, dbTwo, show pyUpper "AAPL" = "AAPL" from rfl,
        aapl0, List.find?]
    simp only [add_up_stock, hfind]
    rw [if_neg (by norm_num [aapl0])]
  · intro user holdings new_symbol f
    cases user with
    | none => rfl
    | some u =>
      have hsym : currentSymbols
          (holdings.map (fun hd => { hd with is_added_up := f hd }))
          = currentSymbols holdings := by
        simp [currentSymbols, List.map_map]
      have hmap : ∀ z : ℚ,
          (holdings.map (fun hd => { hd with is_added_up := f hd })).map
            (fun hd => (hd.symbol, z))
          = holdings.map (fun hd => (hd.symbol, z)) := by
        intro z
        induction holdings with
        | nil => rfl
        | cons a t ih => simp [ih]
      simp only [calculate_distributed_risk, hsym, hmap]

/-- C4: a partial sell of AAPL commits the share-count change (10 → 5) and
then fails inside `_update_all_holdings_stop_loss` with the TypeError, so
MSFT's stop-loss is exactly what it was before — no holding is recomputed;
and the buy endpoint (whose create-new-holding branch contains no
recompute-all call at all) always fails before mutating anything, so no buy
triggers a recomputation either. -/
theorem sell_commits_but_recompute_never_happens :
    sell_stock dbTwo "AAPL" ⟨5, 12⟩
      = (some .typeError,
         ⟨dbTwo.user, [⟨"AAPL", 5, 10, some 8, false⟩, msft0],
          dbTwo.txns ++ [⟨"AAPL", "sell", 5, 12, 60⟩],
          [⟨"AAPL", 50, 60, 10, 5, 10, 12⟩]⟩) ∧
    ((sell_stock dbTwo "AAPL" ⟨5, 12⟩).2.holdings.find?
        (fun hd => hd.symbol == "MSFT")) = some msft0 ∧
    add_stock_to_portfolio dbTwo ⟨"NVDA", 10, 10⟩ = (some .typeError, dbTwo) := by
  have hup : pyUpper "AAPL" = "AAPL" := rfl
  have hfind : findHolding dbTwo "AAPL" = some aapl0 := by
    simp [findHolding, dbTwo, hup, aapl0, List.find?]
  have hsell : sell_stock dbTwo "AAPL" ⟨5, 12⟩
      = (some .typeError,
         ⟨dbTwo.user, [⟨"AAPL", 5, 10, some 8, false⟩, msft0],
          dbTwo.txns ++ [⟨"AAPL", "sell", 5, 12, 60⟩],
          [⟨"AAPL", 50, 60, 10, 5, 10, 12⟩]⟩) := by
    have hms : ("MSFT" == "AAPL") = false := by simp
    have hms2 : ¬("MSFT" = "AAPL") := by simp
    simp only [sell_stock, hfind]
    norm_num [aapl0, dbTwo, msft0, update_all_holdings_stop_loss, hms, hms2]
  refine ⟨hsell, ?_, ?_⟩
  · rw [hsell]
    simp [msft0, List.find?]
  · simp [add_stock_to_portfolio, settingsValid, dbTwo]

/-- C9: each of the three precondition failures — selling more shares than
held, adding up at least the current share count, buying with missing or
non-positive risk settings — is rejected with the committed database
unchanged: no transaction appended, no holding changed, created or
deleted. -/
theorem preconditions_reject_before_mutation (db : PortfolioDB) (env : QuoteEnv)
    (symbol : String) (sd : SellReq) (data : BuyReq) (item : BuyReq) :
    (∀ hd, findHolding db symbol = some hd → sd.shares > hd.total_shares →
      sell_stock db symbol sd = (some .badRequest, db)) ∧
    (∀ hd, findHolding db symbol = some hd → data.shares ≥ hd.total_shares →
      add_up_stock env db symbol data = (some .badRequest, db)) ∧
    (settingsValid db.user = false →
      add_stock_to_portfolio db item = (some .badRequest, db)) := by
  refine ⟨?_, ?_, ?_⟩
  · intro hd hfind hgt
    simp only [sell_stock, hfind]
    rw [if_pos hgt]
  · intro hd hfind hge
    simp only [add_up_stock, hfind]
    rw [if_pos hge]
  · intro hval
    simp only [add_stock_to_portfolio, hval]
    rw [if_neg (by simp)]

/-- A user with no risk settings holding 10 shares of AAPL. -/
def dbNoSettings : PortfolioDB := ⟨⟨none, none⟩, [aapl0], [], []⟩

/-- Witness for C9: overselling (11 > 10), an equal-size add-up (10 ≥ 10)
and a buy without risk settings are all rejected leaving the database
unchanged. -/
theorem preconditions_reject_before_mutation_witness :
    sell_stock dbNoSettings "AAPL" ⟨11, 5⟩ = (some .badRequest, dbNoSettings) ∧
    add_up_stock envTwo dbNoSettings "AAPL" ⟨"AAPL", 10, 5⟩
      = (some .badRequest, dbNoSettings) ∧
    add_stock_to_portfolio dbNoSettings ⟨"AAPL", 1, 5⟩
      = (some .badRequest, dbNoSettings) := by
  have hfind : findHolding dbNoSettings "AAPL" = some aapl0 := by
    simp [findHolding, dbNoSettings, show pyUpper "AAPL" = "AAPL" from rfl,
      aapl0, List.find?]
  obtain ⟨h1, h2, h3⟩ := preconditions_reject_before_mutation dbNoSettings envTwo
    "AAPL" ⟨11, 5⟩ ⟨"AAPL", 10, 5⟩ ⟨"AAPL", 1, 5⟩
  exact ⟨h1 aapl0 hfind (by norm_num [aapl0]),
         h2 aapl0 hfind (by norm_num [aapl0]),
         h3 (by simp [settingsValid, dbNoSettings])⟩

end TurtleStock
